import Mathlib

/-!
Verification development for the `bevy_web_asset` asset-loading router
(`src/web_asset_io.rs`).  The Rust source is shallowly embedded: each Rust
function relevant to the checked properties is translated into an executable
Lean definition, and the properties are proved about those definitions.

Modelling conventions:
* A Rust `Path`/`PathBuf` (Unix) is a byte string.  The byte `0x2F` (`'/'`)
  never occurs inside a multi-byte UTF-8 sequence, so the slash-separated
  segment structure is well defined on raw bytes.  We model a path as a
  `String` (its segment structure, segments that are not valid UTF-8 being
  represented by placeholder text) together with a flag telling whether the
  whole path is valid UTF-8.  `Path::to_str` succeeds exactly when the flag
  is set.  `is_http` only compares leading segments against the ASCII
  segments of a literal, so this representation is faithful for it.
* `Path::components()` (Unix) is modelled by `parseComponents`: a leading
  `/` yields `rootDir`, a leading `.` segment yields `curDir`, empty and
  inner `.` segments are dropped, `..` yields `parentDir`.
* `Path::starts_with` is the component-wise leading-sequence comparison
  `componentsLeads`.
* Rust panics (`unwrap` on a failing operation) are modelled by `Option`
  results: `none` means the call panicked.
-/

/-- One component of a Unix path, as produced by Rust's
`std::path::Components`. -/
inductive PathComponent where
  | rootDir : PathComponent
  | curDir : PathComponent
  | parentDir : PathComponent
  | normal : List Char → PathComponent
deriving DecidableEq

/-- Split a character list on `'/'`, keeping empty chunks (they are filtered
out afterwards, as Rust's component iterator does). -/
def splitSlash : List Char → List (List Char)
  | [] => [[]]
  | c :: cs =>
    let r := splitSlash cs
    if c = '/' then [] :: r
    else
      match r with
      | [] => [[c]]
      | h :: t => (c :: h) :: t

/-- Turn one slash-separated chunk into a path component: empty chunks and
inner `.` chunks vanish, `..` is `parentDir`, anything else is `normal`. -/
def chunkComponent (c : List Char) : Option PathComponent :=
  if c = [] then none
  else if c = ['.'] then none
  else if c = ['.', '.'] then some PathComponent.parentDir
  else some (PathComponent.normal c)

/-- Rust `Path::components()` on Unix, for a path given by its character
content. -/
def parseComponents (s : String) : List PathComponent :=
  match s.toList with
  | [] => []
  | '/' :: rest => PathComponent.rootDir :: (splitSlash rest).filterMap chunkComponent
  | l =>
    match splitSlash l with
    | ['.'] :: rest => PathComponent.curDir :: rest.filterMap chunkComponent
    | chunks => chunks.filterMap chunkComponent

/-- Component-wise "begins with" test: Rust `Path::starts_with` compares the
component sequences of the two paths. -/
def componentsLeads : List PathComponent → List PathComponent → Bool
  | [], _ => true
  | _ :: _, [] => false
  | a :: as, b :: bs => if a = b then componentsLeads as bs else false

/-- A Rust `Path` (`&Path` / `PathBuf`): its character content plus whether
its bytes are valid UTF-8 (`Path::to_str` succeeds iff they are). -/
structure RustPath where
  str : String
  validUtf8 : Bool
deriving DecidableEq

/-- Rust `Path::to_str`: `Some` of the string form iff the path is valid
UTF-8. -/
def RustPath.to_str (p : RustPath) : Option String :=
  if p.validUtf8 then some p.str else none

/-- Rust `Path::starts_with(base)` where `base` is given as a string
literal. -/
def pathStartsWith (p : RustPath) (base : String) : Bool :=
  componentsLeads (parseComponents base) (parseComponents p.str)

/-- Source `fn is_http(path: &Path) -> bool` (web_asset_io.rs lines 22-24):
`path.starts_with("http://") || path.starts_with("https://")`. -/
def is_http (p : RustPath) : Bool :=
  pathStartsWith p "http://" || pathStartsWith p "https://"

/-- String-level "begins with" on character lists (used only to state the
spec's wording of classification, for comparison with the source's
`is_http`). -/
def charsLead : List Char → List Char → Bool
  | [], _ => true
  | _ :: _, [] => false
  | a :: as, b :: bs => if a = b then charsLead as bs else false

/-- Modelled from the spec: "classified as Remote iff it begins with
`http://` or `https://`" read as a *string prefix* test on the identifier.
This is the spec-side classifier, to be compared with the source's
`is_http`. -/
def spec_is_remote (s : String) : Bool :=
  charsLead "http://".toList s.toList || charsLead "https://".toList s.toList

/-! ## Errors

`AssetIoError` as used by the source: `NotFound(PathBuf)` and
`PathWatchError(PathBuf)` are the two variants it constructs (the watch
error always carries an already-joined absolute path, kept as a `String`).
-/

/-- The `bevy::asset::AssetIoError` variants the source constructs. -/
inductive AssetIoError where
  | notFound : RustPath → AssetIoError
  | pathWatchError : String → AssetIoError
deriving DecidableEq

/-! ## Header registry and request headers

`WebAssetIo.headers` is an `Arc<RwLock<HashMap<String, String>>>`.  A
`HashMap<String, String>` is modelled as an association list read through
`hmGet`; `hmSet` models both `HashMap::insert` and web-sys
`Headers::set` (insert-or-overwrite).  The registry contents a load
snapshots at its start (line 31: `self.headers.read().unwrap().clone()`)
are passed to the load functions as an explicit argument.
-/

/-- Association-list map: headers of a request, or the header registry. -/
abbrev HeaderMap := List (String × String)

/-- Remove every binding of key `k`. -/
def hmRemove : HeaderMap → String → HeaderMap
  | [], _ => []
  | (k', v) :: t, k => if k' = k then hmRemove t k else (k', v) :: hmRemove t k

/-- Insert-or-overwrite a binding (models `HashMap::insert` /
`Headers::set`). -/
def hmSet (m : HeaderMap) (k v : String) : HeaderMap :=
  (k, v) :: hmRemove m k

/-- Look up a key. -/
def hmGet : HeaderMap → String → Option String
  | [], _ => none
  | (k', v) :: t, k => if k' = k then some v else hmGet t k

/-- Headers placed on a fresh request from the registry snapshot: the wasm
branch runs `for (name, value) in headers { request.headers().set(..) }`
(lines 41-43) on a request that starts with no custom headers. -/
def build_request_headers (snapshot : HeaderMap) : HeaderMap :=
  snapshot.foldl (fun acc nv => hmSet acc nv.1 nv.2) []

/-! ## Responses and the browser cache -/

/-- A web-sys `Response` as far as the source observes it: HTTP status,
the `etag` response header (`headers().get("etag")`; a header-read error is
behaviourally identical to an absent header, both fall into the no-etag
branch), and the body bytes yielded by `array_buffer()`. -/
structure Response where
  status : Nat
  etag : Option String
  body : List Nat
deriving DecidableEq

/-- The contents of the named browser cache (`caches.open(cache_name)`),
keyed by request URI. -/
abbrev CacheMap := List (String × Response)

/-- Cache lookup (`cache.match_with_str(uri)`). -/
def cacheMatch : CacheMap → String → Option Response
  | [], _ => none
  | (k, r) :: t, uri => if k = uri then some r else cacheMatch t uri

/-- Cache write (`cache.put_with_request(request, response)`): overwrites
any entry for the same key (the request URI). -/
def cachePut (c : CacheMap) (uri : String) (r : Response) : CacheMap :=
  (uri, r) :: (c.filter fun kr => decide (kr.1 ≠ uri))

/-- Whether the cache holds an entry for `uri` that carries an etag — the
condition under which `get_chache_and_set_header` reports a cache hit. -/
def cacheHitWithEtag (c : CacheMap) (uri : String) : Bool :=
  match cacheMatch c uri with
  | some cached => cached.etag.isSome
  | none => false

/-! ## The wasm fetch path -/

/-- Source `wasm_functions::get_chache_and_set_header` (lines 162-197).
`cacheOpenOk` is whether `caches.open` / `cache.match` resolve; the source
calls `.unwrap()` on them, so failure is a panic (`none`).  On success the
function returns the cached response when one exists *and* carries an
etag — in that case it also sets `If-None-Match` on the request — and
`none`-hit otherwise.  The (possibly extended) request headers are
returned alongside, since the Rust function mutates the request. -/
def get_chache_and_set_header (cacheOpenOk : Bool) (cache : CacheMap)
    (reqHeaders : HeaderMap) (uri : String) :
    Option (Option Response × HeaderMap) :=
  if cacheOpenOk then
    match cacheMatch cache uri with
    | none => some (none, reqHeaders)
    | some cached =>
      match cached.etag with
      | some etag => some (some cached, hmSet reqHeaders "If-None-Match" etag)
      | none => some (none, reqHeaders)
  else none

/-- Source `wasm_functions::save_response_to_cache` (lines 199-215).  Both
`caches.open` and `cache.put_with_request` results are `.unwrap()`ed, so a
cache-open or cache-put failure is a panic (`none`); on success the cache
gains/overwrites the entry for the request URI. -/
def save_response_to_cache (cacheOpenOk cachePutOk : Bool) (cache : CacheMap)
    (uri : String) (response : Response) : Option CacheMap :=
  if cacheOpenOk then
    if cachePutOk then some (cachePut cache uri response) else none
  else none

/-- The else-branch of the 304 test (lines 63-72 then 74-80): save the
fetched response to the cache (panicking if that panics), then return its
body bytes. -/
def save_and_return (cacheOpenOk cachePutOk : Bool) (cache : CacheMap)
    (uri : String) (response : Response) :
    Option (Except AssetIoError (List Nat) × CacheMap) :=
  match save_response_to_cache cacheOpenOk cachePutOk cache uri response with
  | none => none
  | some cache2 => some (Except.ok response.body, cache2)

/-- The wasm environment a load runs against: whether the cache store's
open/match and put operations resolve, and the origin — a function from
request URI and request headers to a transport outcome
(`window.fetch(request)`). -/
structure WasmFetchEnv where
  cacheOpenOk : Bool
  cachePutOk : Bool
  fetch : String → HeaderMap → Except Unit Response

/-- Source `WebAssetIo::load_path` (lines 27-99), wasm branch
(`#[cfg(target_arch = "wasm32")]`, lines 33-81).

* `default_load` is `self.default_io.load_path` (the local backend);
* `snapshot` is the header-registry contents cloned at line 31;
* `cache` is the named browser cache's contents when the load runs;
* result `none` models a panic (the `to_str().unwrap()` at line 29, or a
  cache-store `unwrap` inside the helpers); otherwise the result is the
  load's `Result` together with the final cache contents. -/
def load_path_wasm (env : WasmFetchEnv)
    (default_load : RustPath → Except AssetIoError (List Nat))
    (snapshot : HeaderMap) (cache : CacheMap) (path : RustPath) :
    Option (Except AssetIoError (List Nat) × CacheMap) :=
  if is_http path then
    match path.to_str with
    | none => none
    | some uri =>
      let reqHeaders := build_request_headers snapshot
      match get_chache_and_set_header env.cacheOpenOk cache reqHeaders uri with
      | none => none
      | some (cached_response, sentHeaders) =>
        match env.fetch uri sentHeaders with
        | Except.error _ => some (Except.error (AssetIoError.notFound path), cache)
        | Except.ok response =>
          match cached_response with
          | some cached =>
            if response.status = 304 then some (Except.ok cached.body, cache)
            else save_and_return env.cacheOpenOk env.cachePutOk cache uri response
          | none => save_and_return env.cacheOpenOk env.cachePutOk cache uri response
  else
    some (default_load path, cache)

/-! ## The native fetch path -/

/-- A `surf` response as far as the source observes it: `body_bytes()` may
fail (mapped to `NotFound`); the status is carried but never read by the
source. -/
structure NativeResponse where
  status : Nat
  body_bytes : Except Unit (List Nat)

/-- The native environment: `surf::get(uri)` — the second argument is the
set of custom request headers the caller attaches (the source attaches
none). -/
structure NativeFetchEnv where
  get : String → HeaderMap → Except Unit NativeResponse

/-- Source `WebAssetIo::load_path` (lines 27-99), native branch
(`#[cfg(not(target_arch = "wasm32"))]`, lines 83-93).  The registry
snapshot of line 31 is cloned here too but the native future never uses
it: `surf::get(uri)` is issued with no custom headers (`[]`).  Result
`none` models the `to_str().unwrap()` panic. -/
def load_path_native (env : NativeFetchEnv)
    (default_load : RustPath → Except AssetIoError (List Nat))
    (snapshot : HeaderMap) (path : RustPath) :
    Option (Except AssetIoError (List Nat)) :=
  if is_http path then
    match path.to_str with
    | none => none
    | some uri =>
      let _snapshot_taken := snapshot
      match env.get uri [] with
      | Except.error _ => some (Except.error (AssetIoError.notFound path))
      | Except.ok resp =>
        match resp.body_bytes with
        | Except.error _ => some (Except.error (AssetIoError.notFound path))
        | Except.ok bytes => some (Except.ok bytes)
  else
    some (default_load path)

/-! ## The remaining router operations -/

/-- Source `WebAssetIo::read_directory` (lines 101-106): unconditional
delegation to `self.default_io`. -/
def read_directory (default_read : RustPath → Except AssetIoError (List RustPath))
    (path : RustPath) : Except AssetIoError (List RustPath) :=
  default_read path

/-- Source `WebAssetIo::is_dir` (lines 142-148): `false` for http paths,
else delegation to `self.default_io`. -/
def is_dir (default_is_dir : RustPath → Bool) (path : RustPath) : Bool :=
  if is_http path then false else default_is_dir path

/-- Source `WebAssetIo::get_metadata` (lines 150-152): unconditional
delegation to `self.default_io` (the metadata value itself is opaque to the
router; `Nat` stands in for `bevy::asset::Metadata`). -/
def get_metadata (default_meta : RustPath → Except AssetIoError Nat)
    (path : RustPath) : Except AssetIoError Nat :=
  default_meta path

/-- Source `WebAssetIo::watch_for_changes` (lines 137-140): the body is
`Ok(())` — it never calls `self.default_io.watch_for_changes()`, whose
result is passed here as `_default_result` to make that observable. -/
def watch_for_changes (_default_result : Except AssetIoError Unit) :
    Except AssetIoError Unit :=
  Except.ok ()

/-! ## Filesystem watching -/

/-- Rust `PathBuf::join` on Unix strings: an absolute right-hand side
replaces the left, otherwise the two are joined with a single `/`. -/
def pathJoin (root p : String) : String :=
  if charsLead ['/'] p.toList then p
  else if root = "" then p
  else if charsLead ['/'] root.toList.reverse then root ++ p
  else root ++ "/" ++ p

/-- The `FilesystemWatcher` behind `Arc<RwLock<Option<..>>>`: the set of
registered paths, plus the external watcher's behaviour (whether
`notify`-level registration of a given path fails). -/
structure FilesystemWatcher where
  watched : List String
  watchFails : String → Bool

/-- `FilesystemWatcher::watch`: registers the path, or fails (the source
only observes success/failure). -/
def FilesystemWatcher.watch (w : FilesystemWatcher) (p : String) :
    Except Unit FilesystemWatcher :=
  if w.watchFails p then Except.error ()
  else Except.ok ⟨p :: w.watched, w.watchFails⟩

/-- Source `WebAssetIo::watch_path_for_changes` (lines 108-135).  Http
paths: `Ok(())` with no registration.  Other paths: join onto
`self.root_path`; with a watcher present, register (mapping a registration
error to `PathWatchError(absolute_path)`); with none present, `Ok(())`.
The write-lock is assumed healthy (a poisoned lock would silently skip
registration).  Returns the result together with the watcher state. -/
def watch_path_for_changes (root_path : String)
    (filesystem_watcher : Option FilesystemWatcher) (path : RustPath)
    (_to_reload : Option RustPath) :
    Except AssetIoError Unit × Option FilesystemWatcher :=
  if is_http path then
    (Except.ok (), filesystem_watcher)
  else
    let absolute_path := pathJoin root_path path.str
    match filesystem_watcher with
    | some watcher =>
      match watcher.watch absolute_path with
      | Except.error _ =>
        (Except.error (AssetIoError.pathWatchError absolute_path), some watcher)
      | Except.ok watcher2 => (Except.ok (), some watcher2)
    | none => (Except.ok (), none)

/-! ## Concrete instances used by witnesses and counterexamples -/

/-- A local backend load that fails on every path (its behaviour is
irrelevant for remote paths). -/
def local_stub : RustPath → Except AssetIoError (List Nat) :=
  fun p => Except.error (AssetIoError.notFound p)

/-- A native origin that answers `[1]` when the request carries the header
`X-Test: 1` and `[2]` otherwise, so the response bytes reveal whether the
header was attached. -/
def c1_env : NativeFetchEnv :=
  ⟨fun _ hs =>
    if hmGet hs "X-Test" = some "1" then Except.ok ⟨200, Except.ok [1]⟩
    else Except.ok ⟨200, Except.ok [2]⟩⟩

/-- A wasm origin that always answers 304 with an empty body and no etag. -/
def c2_env : WasmFetchEnv :=
  ⟨true, true, fun _ _ => Except.ok ⟨304, none, []⟩⟩

/-- A wasm environment whose cache store accepts opens but rejects puts,
while the origin answers 200 with body `[3]`. -/
def c5_env : WasmFetchEnv :=
  ⟨true, false, fun _ _ => Except.ok ⟨200, some "v1", [3]⟩⟩

/-! ## Association-list lemmas -/

theorem hmGet_hmRemove_ne (m : HeaderMap) (k n : String) (h : n ≠ k) :
    hmGet (hmRemove m k) n = hmGet m n := by
  induction m with
  | nil => rfl
  | cons p t ih =>
    obtain ⟨k', v⟩ := p
    by_cases hk : k' = k
    · have hkn : ¬ k = n := fun hkn => h hkn.symm
      simp [hmRemove, hk, hmGet, hkn, ih]
    · simp [hmRemove, hk, hmGet, ih]

theorem hmGet_hmSet_self (m : HeaderMap) (k v : String) :
    hmGet (hmSet m k v) k = some v := by
  simp [hmSet, hmGet]

theorem hmGet_hmSet_ne (m : HeaderMap) (k v n : String) (h : n ≠ k) :
    hmGet (hmSet m k v) n = hmGet m n := by
  have hkn : ¬ k = n := fun hkn => h hkn.symm
  simp [hmSet, hmGet, hkn, hmGet_hmRemove_ne m k n h]

theorem hmGet_fold_notmem (l : HeaderMap) (acc : HeaderMap) (n : String)
    (h : n ∉ l.map Prod.fst) :
    hmGet (l.foldl (fun acc nv => hmSet acc nv.1 nv.2) acc) n = hmGet acc n := by
  induction l generalizing acc with
  | nil => rfl
  | cons p t ih =>
    simp only [List.map_cons, List.mem_cons] at h
    push_neg at h
    rw [List.foldl_cons, ih _ h.2, hmGet_hmSet_ne _ _ _ _ h.1]

theorem hmGet_fold_mem (l : HeaderMap) (acc : HeaderMap) (n v : String)
    (hnd : (l.map Prod.fst).Nodup) (hmem : (n, v) ∈ l) :
    hmGet (l.foldl (fun acc nv => hmSet acc nv.1 nv.2) acc) n = some v := by
  induction l generalizing acc with
  | nil => cases hmem
  | cons p t ih =>
    obtain ⟨k, w⟩ := p
    simp only [List.map_cons, List.nodup_cons] at hnd
    rcases List.mem_cons.mp hmem with heq | hmem'
    · injection heq with h1 h2
      subst h1
      subst h2
      rw [List.foldl_cons, hmGet_fold_notmem t _ n hnd.1, hmGet_hmSet_self]
    · rw [List.foldl_cons]
      exact ih _ hnd.2 hmem'

theorem componentsLeads_singleton (x : PathComponent) (l : List PathComponent) :
    componentsLeads [x] l = true ↔ l.head? = some x := by
  cases l with
  | nil => simp [componentsLeads]
  | cons b bs =>
    by_cases h : x = b
    · simp [componentsLeads, h]
    · have hb : ¬ b = x := fun hb => h hb.symm
      simp [componentsLeads, h, hb]

/-! ## Claim C3: path classification -/

/-- Claim C3, counterexample to the claim as stated.  The claim says a path
is classified Remote iff its identifier begins with the *string* prefix
`http://` or `https://`.  The source's `is_http` uses `Path::starts_with`,
which compares path components, so the identifier `"http:"` (whose single
component equals the single component of `"http://"`) is classified Remote
even though it does not begin with either string prefix. -/
theorem C3_counterexample :
    is_http ⟨"http:", true⟩ = true ∧ spec_is_remote "http:" = false :=
  ⟨by decide, by decide⟩

/-- Claim C3 (amended): the router classifies a path as Remote iff the
path's first component is the segment `http:` or the segment `https:`
(Rust `Path::starts_with` component semantics; `"http://"` parses to the
single component `http:`).  This covers every identifier beginning with the
string `http://` or `https://`, but also identifiers such as `"http:"`.
Classification is a pure function of the path (`is_http` is a plain
function), so it yields the same answer on every call. -/
theorem C3_classification (p : RustPath) :
    is_http p = true ↔
      ((parseComponents p.str).head? = some (PathComponent.normal "http:".toList) ∨
       (parseComponents p.str).head? = some (PathComponent.normal "https:".toList)) := by
  have h1 : parseComponents "http://" = [PathComponent.normal "http:".toList] := by decide
  have h2 : parseComponents "https://" = [PathComponent.normal "https:".toList] := by decide
  simp only [is_http, pathStartsWith, h1, h2, Bool.or_eq_true]
  rw [componentsLeads_singleton, componentsLeads_singleton]

/-! ## Claim C1: header propagation -/

/-- Claim C1, counterexample to the claim as stated on the native runtime.
After `set("X-Test", "1")` (the registry is `hmSet [] "X-Test" "1"`), a
remote load against an origin that answers `[1]` exactly when the request
carries `X-Test: 1` (and `[2]` otherwise) returns `[2]`: the native branch
issues `surf::get(uri)` without attaching the registry snapshot, so the
outgoing request does not include the header. -/
theorem C1_native_counterexample :
    load_path_native c1_env local_stub (hmSet [] "X-Test" "1")
        ⟨"http://example.com/a.png", true⟩
      = some (Except.ok [2]) ∧
    c1_env.get "http://example.com/a.png" (hmSet [] "X-Test" "1")
      = Except.ok ⟨200, Except.ok [1]⟩ :=
  ⟨rfl, rfl⟩

/-- Claim C1 (amended).  On the wasm runtime, the headers actually sent
with a remote load are computed from the registry snapshot taken when the
load starts (`build_request_headers`, then possibly an `If-None-Match`
added by `get_chache_and_set_header`), so after `set(name, value)` every
subsequent wasm load's outgoing request carries that header — except that
a registry-set `If-None-Match` can be overwritten by cache revalidation —
and a `set` during an in-flight load cannot alter the snapshot already
taken.  On the native runtime the registry is never attached: the load's
result is independent of the snapshot. -/
theorem C1_header_propagation (n v : String) (hnm : n ≠ "If-None-Match") :
    (∀ (snapshot : HeaderMap), (snapshot.map Prod.fst).Nodup → (n, v) ∈ snapshot →
      ∀ (cacheOpenOk : Bool) (cache : CacheMap) (uri : String)
        (hit : Option Response) (sent : HeaderMap),
        get_chache_and_set_header cacheOpenOk cache (build_request_headers snapshot) uri
          = some (hit, sent) →
        hmGet sent n = some v) ∧
    (∀ (env : NativeFetchEnv) (default_load : RustPath → Except AssetIoError (List Nat))
        (s1 s2 : HeaderMap) (path : RustPath),
      load_path_native env default_load s1 path
        = load_path_native env default_load s2 path) := by
  constructor
  · intro snapshot hnd hmem cacheOpenOk cache uri hit sent h
    have hbase : hmGet (build_request_headers snapshot) n = some v := by
      simpa [build_request_headers] using hmGet_fold_mem snapshot [] n v hnd hmem
    cases cacheOpenOk with
    | false => simp [get_chache_and_set_header] at h
    | true =>
      cases hcm : cacheMatch cache uri with
      | none =>
        simp [get_chache_and_set_header, hcm] at h
        rw [← h.2]
        exact hbase
      | some cached =>
        cases hetag : cached.etag with
        | none =>
          simp [get_chache_and_set_header, hcm, hetag] at h
          rw [← h.2]
          exact hbase
        | some etag =>
          simp [get_chache_and_set_header, hcm, hetag] at h
          rw [← h.2, hmGet_hmSet_ne _ _ _ _ hnm]
          exact hbase
  · intro env default_load s1 s2 path
    rfl

/-- Claim C1, witness for the amended theorem at a concrete input: with the
registry `[("X-Test", "1")]`, the headers passed to `window.fetch` by a
wasm load (empty cache, cache store healthy) contain `X-Test: 1`. -/
theorem C1_header_propagation_witness :
    hmGet [("X-Test", "1")] "X-Test" = some "1" :=
  (C1_header_propagation "X-Test" "1" (by decide)).1 [("X-Test", "1")]
    (by decide) (by decide) true [] "http://example.com/a.png" none
    [("X-Test", "1")] rfl

/-! ## Claim C4: remote paths and the local backend -/

/-- Claim C4: for every path classified as remote, `is_dir` returns
`false`, `read_directory` and `get_metadata` delegate unchanged to the
local backend, and `load_path` (both runtimes) never invokes the local
backend — its result is the same whatever the local backend's load does. -/
theorem C4_remote_operations (path : RustPath) (hhttp : is_http path = true) :
    (∀ f, is_dir f path = false) ∧
    (∀ f, read_directory f path = f path) ∧
    (∀ f, get_metadata f path = f path) ∧
    (∀ (env : WasmFetchEnv) (snapshot : HeaderMap) (cache : CacheMap) d1 d2,
      load_path_wasm env d1 snapshot cache path
        = load_path_wasm env d2 snapshot cache path) ∧
    (∀ (env : NativeFetchEnv) (snapshot : HeaderMap) d1 d2,
      load_path_native env d1 snapshot path
        = load_path_native env d2 snapshot path) := by
  refine ⟨?_, fun f => rfl, fun f => rfl, ?_, ?_⟩
  · intro f
    simp [is_dir, hhttp]
  · intro env snapshot cache d1 d2
    simp [load_path_wasm, hhttp]
  · intro env snapshot d1 d2
    simp [load_path_native, hhttp]

/-- Claim C4, witness: at the remote path `http://example.com/a.png`,
`is_dir` is `false` even over a local backend that says `true` everywhere,
and a native load yields the fetched bytes whether the local backend load
errors everywhere or succeeds everywhere. -/
theorem C4_remote_operations_witness :
    is_dir (fun _ => true) ⟨"http://example.com/a.png", true⟩ = false ∧
    load_path_native ⟨fun _ _ => Except.ok ⟨200, Except.ok [7]⟩⟩ local_stub []
        ⟨"http://example.com/a.png", true⟩
      = load_path_native ⟨fun _ _ => Except.ok ⟨200, Except.ok [7]⟩⟩
          (fun _ => Except.ok []) [] ⟨"http://example.com/a.png", true⟩ :=
  ⟨(C4_remote_operations ⟨"http://example.com/a.png", true⟩ (by decide)).1 _,
   (C4_remote_operations ⟨"http://example.com/a.png", true⟩ (by decide)).2.2.2.2
     _ [] local_stub (fun _ => Except.ok [])⟩

/-! ## Claim C8: the global watch hook -/

/-- Claim C8, counterexample to the claim as stated: `watch_for_changes`
is claimed to delegate to the local backend and return its result, but the
source's body is `Ok(())` — with a local backend whose own
`watch_for_changes` fails, the router still returns success, so its result
is not the local backend's result. -/
theorem C8_counterexample :
    watch_for_changes (Except.error (AssetIoError.notFound ⟨"a", true⟩)) = Except.ok () ∧
    (Except.error (AssetIoError.notFound ⟨"a", true⟩) : Except AssetIoError Unit)
      ≠ Except.ok () :=
  ⟨rfl, fun h => Except.noConfusion h⟩

/-- Claim C8 (amended): `watch_for_changes` does not consult the local
backend at all — whatever the local backend's `watch_for_changes` result
is, the router returns `Ok(())`; it installs no remote polling (the body
is just `Ok(())`). -/
theorem C8_watch_for_changes (r : Except AssetIoError Unit) :
    watch_for_changes r = Except.ok () :=
  rfl

/-! ## Claim C2: 304 handling -/

/-- Claim C2, counterexample to the claim as stated.  With an empty cache
(no prior cache hit) and an origin answering 304, the claim demands a
`NotFound` failure; the source instead falls into the else-branch of the
`(Some(cached), 304)` test, stores the 304 response in the cache and
returns its (empty) body as a *successful* load. -/
theorem C2_counterexample :
    load_path_wasm c2_env local_stub [] [] ⟨"http://a", true⟩
      = some (Except.ok [], [("http://a", ⟨304, none, []⟩)]) ∧
    (Except.ok ([] : List Nat) : Except AssetIoError (List Nat))
      ≠ Except.error (AssetIoError.notFound ⟨"http://a", true⟩) :=
  ⟨rfl, fun h => Except.noConfusion h⟩

/-- Claim C2 (amended): on a 304 response, if a cache hit (a cached entry
carrying an etag) was present at the start of the fetch, the load's result
is the cached entry's bytes and the cache is unchanged; if no cache hit
was present — no cached entry at all, *or* a cached entry without an
etag — the load does *not* fail with `NotFound`: it returns the 304
response's own body bytes and stores the 304 response in the cache. -/
theorem C2_not_modified (env : WasmFetchEnv)
    (default_load : RustPath → Except AssetIoError (List Nat))
    (snapshot : HeaderMap) (cache : CacheMap) (path : RustPath) (uri : String)
    (response : Response)
    (hopen : env.cacheOpenOk = true)
    (hhttp : is_http path = true) (hstr : path.to_str = some uri)
    (hfetch : ∀ hs, env.fetch uri hs = Except.ok response)
    (hstatus : response.status = 304) :
    (∀ cached etag, cacheMatch cache uri = some cached → cached.etag = some etag →
      load_path_wasm env default_load snapshot cache path
        = some (Except.ok cached.body, cache)) ∧
    (cacheHitWithEtag cache uri = false → env.cachePutOk = true →
      load_path_wasm env default_load snapshot cache path
        = some (Except.ok response.body, cachePut cache uri response)) := by
  constructor
  · intro cached etag hcm hetag
    simp [load_path_wasm, hhttp, hstr, get_chache_and_set_header, hopen, hcm, hetag,
      hfetch, hstatus]
  · intro hno hput
    cases hcm : cacheMatch cache uri with
    | none =>
      simp [load_path_wasm, hhttp, hstr, get_chache_and_set_header, hopen, hcm,
        hfetch, save_and_return, save_response_to_cache, hput]
    | some cached =>
      cases hetag : cached.etag with
      | none =>
        simp [load_path_wasm, hhttp, hstr, get_chache_and_set_header, hopen, hcm,
          hetag, hfetch, save_and_return, save_response_to_cache, hput]
      | some etag =>
        simp [cacheHitWithEtag, hcm, hetag] at hno

/-- Claim C2, witness.  First conjunct: a cache entry for `http://a` with
etag `v1` and bytes `[5, 6]`, origin answering 304 — the load returns the
cached bytes and leaves the cache unchanged.  Second conjunct: a cached
entry *without* an etag (no cache hit) and the same 304 origin — the load
returns the 304 body and overwrites the entry with the 304 response. -/
theorem C2_not_modified_witness :
    load_path_wasm c2_env local_stub [] [("http://a", ⟨200, some "v1", [5, 6]⟩)]
        ⟨"http://a", true⟩
      = some (Except.ok [5, 6], [("http://a", ⟨200, some "v1", [5, 6]⟩)]) ∧
    load_path_wasm c2_env local_stub [] [("http://a", ⟨200, none, [5, 6]⟩)]
        ⟨"http://a", true⟩
      = some (Except.ok [], [("http://a", ⟨304, none, []⟩)]) :=
  ⟨(C2_not_modified c2_env local_stub [] [("http://a", ⟨200, some "v1", [5, 6]⟩)]
      ⟨"http://a", true⟩ "http://a" ⟨304, none, []⟩ rfl (by decide) rfl
      (fun _ => rfl) rfl).1 ⟨200, some "v1", [5, 6]⟩ "v1" rfl rfl,
   (C2_not_modified c2_env local_stub [] [("http://a", ⟨200, none, [5, 6]⟩)]
      ⟨"http://a", true⟩ "http://a" ⟨304, none, []⟩ rfl (by decide) rfl
      (fun _ => rfl) rfl).2 rfl rfl⟩

/-! ## Claim C5: cache-store failure -/

/-- Claim C5, counterexample to the claim as stated.  The origin's fetch
succeeds (status 200, body `[3]`), but the cache store rejects the put:
the source `.unwrap()`s the put result, so the load panics (`none`) —
the cache failure is not absorbed and the fetched bytes are never
returned. -/
theorem C5_counterexample :
    load_path_wasm c5_env local_stub [] [] ⟨"http://a", true⟩ = none ∧
    c5_env.fetch "http://a" [] = Except.ok ⟨200, some "v1", [3]⟩ :=
  ⟨rfl, rfl⟩

/-- Claim C5 (amended): a failure to open or write the cache store makes
the wasm load panic (the cache promises are `.unwrap()`ed) instead of
returning the fetched bytes: with a failing cache open the load panics
before fetching; with a successful open, a failing put and a successful
fetch whose response must be saved — any response other than a 304
matched against a cached entry carrying an etag, so in particular with no
cached entry, with an etag-less cached entry, or with a stale-etag entry
answered by a non-304 — the load panics after fetching. -/
theorem C5_cache_failure (env : WasmFetchEnv)
    (default_load : RustPath → Except AssetIoError (List Nat))
    (snapshot : HeaderMap) (cache : CacheMap) (path : RustPath) (uri : String)
    (response : Response)
    (hhttp : is_http path = true) (hstr : path.to_str = some uri) :
    (env.cacheOpenOk = false →
      load_path_wasm env default_load snapshot cache path = none) ∧
    (env.cacheOpenOk = true → env.cachePutOk = false →
      (∀ hs, env.fetch uri hs = Except.ok response) →
      (response.status ≠ 304 ∨ cacheHitWithEtag cache uri = false) →
      load_path_wasm env default_load snapshot cache path = none) := by
  constructor
  · intro hopen
    simp [load_path_wasm, hhttp, hstr, get_chache_and_set_header, hopen]
  · intro hopen hput hfetch hno
    cases hcm : cacheMatch cache uri with
    | none =>
      simp [load_path_wasm, hhttp, hstr, get_chache_and_set_header, hopen, hcm, hfetch,
        save_and_return, save_response_to_cache, hput]
    | some cached =>
      cases hetag : cached.etag with
      | none =>
        simp [load_path_wasm, hhttp, hstr, get_chache_and_set_header, hopen, hcm,
          hetag, hfetch, save_and_return, save_response_to_cache, hput]
      | some etag =>
        have hst : response.status ≠ 304 := by
          rcases hno with h | h
          · exact h
          · simp [cacheHitWithEtag, hcm, hetag] at h
        simp [load_path_wasm, hhttp, hstr, get_chache_and_set_header, hopen, hcm,
          hetag, hfetch, hst, save_and_return, save_response_to_cache, hput]

/-- Claim C5, witness for the amended theorem: the put-rejecting
environment `c5_env` (origin answering 200) panics a load of `http://b`
with an empty cache, panics it just the same when a stale-etag cache entry
for `http://b` already exists (the 200 response must still be saved), and
the same environment with cache opening failing panics too. -/
theorem C5_cache_failure_witness :
    load_path_wasm c5_env local_stub [] [] ⟨"http://b", true⟩ = none ∧
    load_path_wasm c5_env local_stub [] [("http://b", ⟨200, some "old", [4]⟩)]
        ⟨"http://b", true⟩ = none ∧
    load_path_wasm ⟨false, true, c5_env.fetch⟩ local_stub [] [] ⟨"http://b", true⟩
      = none :=
  ⟨(C5_cache_failure c5_env local_stub [] [] ⟨"http://b", true⟩ "http://b"
      ⟨200, some "v1", [3]⟩ (by decide) rfl).2 rfl rfl (fun _ => rfl)
      (Or.inl (by decide)),
   (C5_cache_failure c5_env local_stub [] [("http://b", ⟨200, some "old", [4]⟩)]
      ⟨"http://b", true⟩ "http://b" ⟨200, some "v1", [3]⟩ (by decide) rfl).2 rfl rfl
      (fun _ => rfl) (Or.inl (by decide)),
   (C5_cache_failure ⟨false, true, c5_env.fetch⟩ local_stub [] [] ⟨"http://b", true⟩
      "http://b" ⟨200, some "v1", [3]⟩ (by decide) rfl).1 rfl⟩

/-! ## Claim C6: transport failure -/

/-- Claim C6: a transport-level failure of a remote load — the wasm fetch
rejecting, the native `surf::get` failing, or the native body read
failing — yields `NotFound` carrying the requested path, with no further
distinction between the failure modes. -/
theorem C6_transport_failure (path : RustPath) (uri : String)
    (hhttp : is_http path = true) (hstr : path.to_str = some uri) :
    (∀ (env : WasmFetchEnv) (default_load : RustPath → Except AssetIoError (List Nat))
        (snapshot : HeaderMap) (cache : CacheMap),
      env.cacheOpenOk = true →
      (∀ hs, env.fetch uri hs = Except.error ()) →
      load_path_wasm env default_load snapshot cache path
        = some (Except.error (AssetIoError.notFound path), cache)) ∧
    (∀ (env : NativeFetchEnv) (default_load : RustPath → Except AssetIoError (List Nat))
        (snapshot : HeaderMap),
      env.get uri [] = Except.error () →
      load_path_native env default_load snapshot path
        = some (Except.error (AssetIoError.notFound path))) ∧
    (∀ (env : NativeFetchEnv) (default_load : RustPath → Except AssetIoError (List Nat))
        (snapshot : HeaderMap) (resp : NativeResponse),
      env.get uri [] = Except.ok resp → resp.body_bytes = Except.error () →
      load_path_native env default_load snapshot path
        = some (Except.error (AssetIoError.notFound path))) := by
  refine ⟨?_, ?_, ?_⟩
  · intro env default_load snapshot cache hopen hfetch
    cases hcm : cacheMatch cache uri with
    | none =>
      simp [load_path_wasm, hhttp, hstr, get_chache_and_set_header, hopen, hcm, hfetch]
    | some cached =>
      cases hetag : cached.etag with
      | none =>
        simp [load_path_wasm, hhttp, hstr, get_chache_and_set_header, hopen, hcm,
          hetag, hfetch]
      | some etag =>
        simp [load_path_wasm, hhttp, hstr, get_chache_and_set_header, hopen, hcm,
          hetag, hfetch]
  · intro env default_load snapshot hget
    simp [load_path_native, hhttp, hstr, hget]
  · intro env default_load snapshot resp hget hbody
    simp [load_path_native, hhttp, hstr, hget, hbody]

/-- Claim C6, witness: concrete unreachable origins on both runtimes, and
a native origin whose body read fails, all yield `NotFound` with the
requested path. -/
theorem C6_transport_failure_witness :
    load_path_wasm ⟨true, true, fun _ _ => Except.error ()⟩ local_stub [] []
        ⟨"http://a", true⟩
      = some (Except.error (AssetIoError.notFound ⟨"http://a", true⟩), []) ∧
    load_path_native ⟨fun _ _ => Except.error ()⟩ local_stub [] ⟨"http://a", true⟩
      = some (Except.error (AssetIoError.notFound ⟨"http://a", true⟩)) ∧
    load_path_native ⟨fun _ _ => Except.ok ⟨200, Except.error ()⟩⟩ local_stub []
        ⟨"http://a", true⟩
      = some (Except.error (AssetIoError.notFound ⟨"http://a", true⟩)) :=
  ⟨(C6_transport_failure ⟨"http://a", true⟩ "http://a" (by decide) rfl).1
      ⟨true, true, fun _ _ => Except.error ()⟩ local_stub [] [] rfl (fun _ => rfl),
   (C6_transport_failure ⟨"http://a", true⟩ "http://a" (by decide) rfl).2.1
      ⟨fun _ _ => Except.error ()⟩ local_stub [] rfl,
   (C6_transport_failure ⟨"http://a", true⟩ "http://a" (by decide) rfl).2.2
      ⟨fun _ _ => Except.ok ⟨200, Except.error ()⟩⟩ local_stub []
      ⟨200, Except.error ()⟩ rfl rfl⟩

/-! ## Claim C7: per-path watch registration -/

/-- Claim C7: `watch_path_for_changes` on a remote path returns success
without touching the watcher; on a local path it joins the path onto the
root and, when a watcher instance is present, registers the absolute path
(failure becoming `PathWatchError` carrying that absolute path), and when
none is present returns success without registering. -/
theorem C7_watch_path (root : String) (path : RustPath) (reload : Option RustPath) :
    (is_http path = true →
      ∀ w, watch_path_for_changes root w path reload = (Except.ok (), w)) ∧
    (is_http path = false →
      (∀ (w : FilesystemWatcher), w.watchFails (pathJoin root path.str) = false →
        watch_path_for_changes root (some w) path reload
          = (Except.ok (), some ⟨pathJoin root path.str :: w.watched, w.watchFails⟩)) ∧
      (∀ (w : FilesystemWatcher), w.watchFails (pathJoin root path.str) = true →
        watch_path_for_changes root (some w) path reload
          = (Except.error (AssetIoError.pathWatchError (pathJoin root path.str)),
             some w)) ∧
      watch_path_for_changes root none path reload = (Except.ok (), none)) := by
  constructor
  · intro h w
    simp [watch_path_for_changes, h]
  · intro h
    refine ⟨?_, ?_, ?_⟩
    · intro w hw
      simp [watch_path_for_changes, h, FilesystemWatcher.watch, hw]
    · intro w hw
      simp [watch_path_for_changes, h, FilesystemWatcher.watch, hw]
    · simp [watch_path_for_changes, h]

/-- Claim C7, witness (the spec's own scenario): with root `/game` and an
always-succeeding watcher, watching `assets/sprite.png` registers
`/game/assets/sprite.png`; watching `https://example.com/sprite.png`
succeeds and registers nothing. -/
theorem C7_watch_path_witness :
    watch_path_for_changes "/game" (some ⟨[], fun _ => false⟩)
        ⟨"assets/sprite.png", true⟩ none
      = (Except.ok (), some ⟨["/game/assets/sprite.png"], fun _ => false⟩) ∧
    watch_path_for_changes "/game" (some ⟨[], fun _ => false⟩)
        ⟨"https://example.com/sprite.png", true⟩ none
      = (Except.ok (), some ⟨[], fun _ => false⟩) := by
  constructor
  · have hj : pathJoin "/game" "assets/sprite.png" = "/game/assets/sprite.png" := by
      decide
    have h := ((C7_watch_path "/game" ⟨"assets/sprite.png", true⟩ none).2
      (by decide)).1 ⟨[], fun _ => false⟩ rfl
    rw [hj] at h
    exact h
  · exact (C7_watch_path "/game" ⟨"https://example.com/sprite.png", true⟩ none).1
      (by decide) (some ⟨[], fun _ => false⟩)

/-! ## Claim C9: non-304 responses -/

/-- Claim C9: any response that arrives at the transport level and is not
a 304 matched against a prior cache hit — including non-success statuses
such as 404 or 500 — resolves the load successfully with the response body
bytes; on the wasm (cache-equipped) runtime the response is also written
to the cache, and the native runtime returns the body whatever the status
is. -/
theorem C9_non_304_body (path : RustPath) (uri : String) (response : Response)
    (cache : CacheMap)
    (hhttp : is_http path = true) (hstr : path.to_str = some uri)
    (hno : response.status ≠ 304 ∨ cacheHitWithEtag cache uri = false) :
    (∀ (env : WasmFetchEnv) (default_load : RustPath → Except AssetIoError (List Nat))
        (snapshot : HeaderMap),
      env.cacheOpenOk = true → env.cachePutOk = true →
      (∀ hs, env.fetch uri hs = Except.ok response) →
      load_path_wasm env default_load snapshot cache path
        = some (Except.ok response.body, cachePut cache uri response)) ∧
    (∀ (env : NativeFetchEnv) (default_load : RustPath → Except AssetIoError (List Nat))
        (snapshot : HeaderMap) (resp : NativeResponse) (bytes : List Nat),
      env.get uri [] = Except.ok resp → resp.body_bytes = Except.ok bytes →
      load_path_native env default_load snapshot path = some (Except.ok bytes)) := by
  constructor
  · intro env default_load snapshot hopen hput hfetch
    cases hcm : cacheMatch cache uri with
    | none =>
      simp [load_path_wasm, hhttp, hstr, get_chache_and_set_header, hopen, hcm, hfetch,
        save_and_return, save_response_to_cache, hput]
    | some cached =>
      cases hetag : cached.etag with
      | none =>
        simp [load_path_wasm, hhttp, hstr, get_chache_and_set_header, hopen, hcm,
          hetag, hfetch, save_and_return, save_response_to_cache, hput]
      | some etag =>
        have hst : response.status ≠ 304 := by
          rcases hno with h | h
          · exact h
          · simp [cacheHitWithEtag, hcm, hetag] at h
        simp [load_path_wasm, hhttp, hstr, get_chache_and_set_header, hopen, hcm,
          hetag, hfetch, hst, save_and_return, save_response_to_cache, hput]
  · intro env default_load snapshot resp bytes hget hbody
    simp [load_path_native, hhttp, hstr, hget, hbody]

/-- Claim C9, witness: a 404 response on the wasm runtime resolves with
its body `[9, 9]` and is written to the cache; a 500 response on the
native runtime resolves with its body `[8]`. -/
theorem C9_non_304_body_witness :
    load_path_wasm ⟨true, true, fun _ _ => Except.ok ⟨404, none, [9, 9]⟩⟩ local_stub
        [] [] ⟨"http://a", true⟩
      = some (Except.ok [9, 9], [("http://a", ⟨404, none, [9, 9]⟩)]) ∧
    load_path_native ⟨fun _ _ => Except.ok ⟨500, Except.ok [8]⟩⟩ local_stub []
        ⟨"http://a", true⟩
      = some (Except.ok [8]) :=
  ⟨(C9_non_304_body ⟨"http://a", true⟩ "http://a" ⟨404, none, [9, 9]⟩ []
      (by decide) rfl (Or.inl (by decide))).1
      ⟨true, true, fun _ _ => Except.ok ⟨404, none, [9, 9]⟩⟩ local_stub [] rfl rfl
      (fun _ => rfl),
   (C9_non_304_body ⟨"http://a", true⟩ "http://a" ⟨404, none, [9, 9]⟩ []
      (by decide) rfl (Or.inl (by decide))).2
      ⟨fun _ _ => Except.ok ⟨500, Except.ok [8]⟩⟩ local_stub []
      ⟨500, Except.ok [8]⟩ [8] rfl rfl⟩

/-! ## Claim C10: non-UTF-8 remote paths -/

/-- Claim C10: loading a remote-classified path whose identifier is not
valid UTF-8 panics at the `path.to_str().unwrap()` conversion (line 29) on
both runtimes, instead of returning a `NotFound` error. -/
theorem C10_nonutf8_panic (path : RustPath) (hinv : path.validUtf8 = false)
    (hhttp : is_http path = true) :
    (∀ (env : WasmFetchEnv) (default_load : RustPath → Except AssetIoError (List Nat))
        (snapshot : HeaderMap) (cache : CacheMap),
      load_path_wasm env default_load snapshot cache path = none) ∧
    (∀ (env : NativeFetchEnv) (default_load : RustPath → Except AssetIoError (List Nat))
        (snapshot : HeaderMap),
      load_path_native env default_load snapshot path = none) := by
  have hts : path.to_str = none := by simp [RustPath.to_str, hinv]
  constructor
  · intro env default_load snapshot cache
    simp [load_path_wasm, hhttp, hts]
  · intro env default_load snapshot
    simp [load_path_native, hhttp, hts]

/-- Claim C10, witness: a path whose segment structure is
`http://invalid-bytes` but whose bytes are not valid UTF-8 is classified
remote and panics both loads, even against perfectly healthy
environments. -/
theorem C10_nonutf8_panic_witness :
    load_path_wasm ⟨true, true, fun _ _ => Except.ok ⟨200, none, [1]⟩⟩ local_stub [] []
        ⟨"http://invalid-bytes", false⟩ = none ∧
    load_path_native ⟨fun _ _ => Except.ok ⟨200, Except.ok [1]⟩⟩ local_stub []
        ⟨"http://invalid-bytes", false⟩ = none :=
  ⟨(C10_nonutf8_panic ⟨"http://invalid-bytes", false⟩ rfl (by decide)).1
      ⟨true, true, fun _ _ => Except.ok ⟨200, none, [1]⟩⟩ local_stub [] [],
   (C10_nonutf8_panic ⟨"http://invalid-bytes", false⟩ rfl (by decide)).2
      ⟨fun _ _ => Except.ok ⟨200, Except.ok [1]⟩⟩ local_stub []⟩
